import Mathlib

/-!
Verification of the wack2 bowden-compensation post-processing script.

The script is a single-pass rewriter of G-code motion programs: it parses
each text line into a structured command, threads machine state
(positions, absolute/relative mode flags) through the file, and rewrites
the extrusion (E) value of motion commands using a quadratic position
curve plus a bounded settling accumulator.

This file gives a shallow embedding of the script: text lines are lists
of characters, Python floats are modelled as exact rationals, and the
mutable module-level state of the script (the settling accumulator, the
warning print, the line counter, the layer-height bookkeeping) is
threaded through an explicit fold state.  The module-level configuration
constants of the script are collected in a Config structure whose
default value carries the literal constants of the source.
-/

-- The rational operations in Batteries are marked irreducible for
-- performance of interactive use; re-enable definitional reduction so
-- that concrete runs of the embedded pipeline can be checked by decide.
attribute [local semireducible] Rat.add Rat.sub Rat.mul Rat.inv Rat.ofScientific

/-! ## Character-list helpers (Python string primitives) -/

/-- Python str.strip: drop leading and trailing whitespace. -/
def trimWs (l : List Char) : List Char :=
  ((l.dropWhile Char.isWhitespace).reverse.dropWhile Char.isWhitespace).reverse

/-- Helper for splitWs: accumulate the current word (reversed) while scanning. -/
def wordsAux : List Char → List Char → List (List Char)
  | [], cur => if cur = [] then [] else [cur.reverse]
  | c :: cs, cur =>
    if c.isWhitespace then
      if cur = [] then wordsAux cs [] else cur.reverse :: wordsAux cs []
    else wordsAux cs (c :: cur)

/-- Python str.split with no argument: split on whitespace runs, dropping empties. -/
def splitWs (l : List Char) : List (List Char) := wordsAux l []

/-- Python line.split with a semicolon and maxsplit 1: the part before the
first semicolon, and (when a semicolon occurs) everything after it. -/
def splitFirstSemi : List Char → List Char × Option (List Char)
  | [] => ([], none)
  | c :: cs =>
    if c = ';' then ([], some cs)
    else
      let r := splitFirstSemi cs
      (c :: r.1, r.2)

/-- Python str.replace of a newline with the empty string. -/
def removeNl (l : List Char) : List Char := l.filter (fun c => c ≠ '\n')

/-- Python str.replace of a semicolon with the empty string. -/
def removeSemis (l : List Char) : List Char := l.filter (fun c => c ≠ ';')

/-- Value of a list of decimal digit characters. -/
def digitsVal (l : List Char) : Nat := l.foldl (fun a c => a * 10 + (c.toNat - '0'.toNat)) 0

/-- Python int(s) on a whitespace-free token: an optional sign followed by
at least one decimal digit.  (Underscore digit grouping, accepted by
Python for literals such as 1_0, does not occur in G-code and is out of
the modelled scope.) -/
def parseInt? : List Char → Option ℤ
  | '+' :: rest =>
    if rest ≠ [] ∧ rest.all Char.isDigit then some (digitsVal rest) else none
  | '-' :: rest =>
    if rest ≠ [] ∧ rest.all Char.isDigit then some (-(digitsVal rest : ℤ)) else none
  | l => if l ≠ [] ∧ l.all Char.isDigit then some (digitsVal l) else none

/-- Split at the first dot, if any. -/
def splitFirstDot : List Char → List Char × Option (List Char)
  | [] => ([], none)
  | c :: cs =>
    if c = '.' then ([], some cs)
    else
      let r := splitFirstDot cs
      (c :: r.1, r.2)

/-- Unsigned part of Python float(s): digits with an optional dot, at
least one digit overall.  A second dot makes the fractional part fail the
digit test, so malformed tokens such as 1.2.3 are rejected, as in Python.
(Exponent forms and the words inf and nan, which Python would accept, do
not occur in G-code parameter values and are out of the modelled scope.) -/
def parseUFloat? (l : List Char) : Option ℚ :=
  match splitFirstDot l with
  | (ip, none) =>
    if ip ≠ [] ∧ ip.all Char.isDigit then some (digitsVal ip : ℚ) else none
  | (ip, some fp) =>
    if (ip ≠ [] ∨ fp ≠ []) ∧ ip.all Char.isDigit ∧ fp.all Char.isDigit then
      some ((digitsVal ip : ℚ) + (digitsVal fp : ℚ) / 10 ^ fp.length)
    else none

/-- Python float(s) on a whitespace-free token (decimal forms). -/
def parseFloat? : List Char → Option ℚ
  | '+' :: rest => parseUFloat? rest
  | '-' :: rest => (parseUFloat? rest).map Neg.neg
  | l => parseUFloat? l

/-! ## Data model (classes Parameter, State, Gcode of the script)

Parameter values are dynamically typed in the script: an int, a float or
None.  Both numeric cases are modelled as a rational; None is the none
case of the Option.  Cloning in the script is deep copying of mutable
objects and is the identity in this immutable embedding. -/

/-- Class Parameter: a name (one letter, or a whole unparseable token)
and an optional numeric value. -/
structure Parameter where
  name : List Char
  value : Option ℚ
  deriving DecidableEq, Repr

/-- Class State: machine state in effect before a command.  In the
script the axis fields start as None and the constructor defaults are
move_absolute true, extrude_absolute true, layer_height 0.2. -/
structure State where
  X : Option ℚ
  Y : Option ℚ
  Z : Option ℚ
  E : Option ℚ
  F : Option ℚ
  move_is_absolute : Bool
  extrude_is_absolute : Bool
  layer_height : ℚ
  deriving DecidableEq, Repr

/-- State() with the constructor defaults of the script. -/
def State.default : State :=
  { X := none, Y := none, Z := none, E := none, F := none,
    move_is_absolute := true, extrude_is_absolute := true, layer_height := 2/10 }

/-- Class Gcode: one parsed line. -/
structure Gcode where
  command : Option (List Char)
  parameters : List Parameter
  move_is_absolute : Bool
  extrude_is_absolute : Bool
  comment : Option (List Char)
  previous_state : Option State
  num_line : Option Nat
  deriving DecidableEq, Repr

/-- Gcode() with the constructor defaults of the script. -/
def Gcode.default : Gcode :=
  { command := none, parameters := [], move_is_absolute := true,
    extrude_is_absolute := true, comment := none, previous_state := none,
    num_line := none }

/-- Gcode.get_param: value of the first parameter with the given name.
The script returns None both when no parameter has the name and when the
parameter is a bare flag with value None. -/
def Gcode.get_param (g : Gcode) (n : List Char) : Option ℚ :=
  match g.parameters.find? (fun p => p.name = n) with
  | some p => p.value
  | none => none

/-- Gcode.set_param on the parameter list: set the value of the first
parameter with the given name, or append a new parameter. -/
def setParamList : List Parameter → List Char → ℚ → List Parameter
  | [], n, v => [⟨n, some v⟩]
  | p :: ps, n, v =>
    if p.name = n then ⟨p.name, some v⟩ :: ps else p :: setParamList ps n v

/-- Gcode.set_param. -/
def Gcode.set_param (g : Gcode) (n : List Char) (v : ℚ) : Gcode :=
  { g with parameters := setParamList g.parameters n v }

/-- Gcode.is_xy_movement: a G1/G2/G3 command with an X or Y parameter
carrying a value. -/
def Gcode.is_xy_movement (g : Gcode) : Bool :=
  if g.command ≠ some "G1".data ∧ g.command ≠ some "G2".data ∧ g.command ≠ some "G3".data then
    false
  else
    (g.parameters.any fun p => p.name = "X".data ∧ p.value.isSome) ||
    (g.parameters.any fun p => p.name = "Y".data ∧ p.value.isSome)

/-- validate_gcode_command_string: full match of one ASCII letter
followed by one or more decimal digits. -/
def validate_gcode_command_string (t : List Char) : Bool :=
  match t with
  | [] => false
  | c :: rest => c.isAlpha && (rest ≠ [] && rest.all Char.isDigit)

/-- One key-value token of a code line: first character as the name and
the remainder parsed as int, else float; if neither parses, the whole
token becomes the name of a valueless flag parameter. -/
def parseParamToken (t : List Char) : Parameter :=
  match t with
  | [] => ⟨[], none⟩
  | c :: rest =>
    match parseInt? rest with
    | some n => ⟨[c], some (n : ℚ)⟩
    | none =>
      match parseFloat? rest with
      | some q => ⟨[c], some q⟩
      | none => ⟨t, none⟩

/-- parse_gcode_line: build a Gcode from one raw text line and the state
in effect before it.  Mode flags are copied from the incoming state;
blank lines keep command None; a line starting with a semicolon becomes a
pass-through command holding the whole comment line; otherwise the line
splits into a code part and an optional trailing comment, the leading
token is validated as letter+digits (failing that the whole code part is
an opaque pass-through command), and the remaining tokens become
parameters. -/
def parse_gcode_line (line : List Char) (prev : Option State) : Gcode :=
  let g0 : Gcode :=
    { Gcode.default with
      previous_state := prev,
      move_is_absolute := match prev with | some p => p.move_is_absolute | none => true,
      extrude_is_absolute := match prev with | some p => p.extrude_is_absolute | none => true }
  let l := trimWs line
  if l = [] then g0
  else if l.head? = some ';' then { g0 with command := some (removeNl l) }
  else
    let parts := splitFirstSemi l
    let g1 :=
      match parts.2 with
      | some c => { g0 with comment := some (trimWs (removeSemis (removeNl c))) }
      | none => g0
    match splitWs (trimWs parts.1) with
    | [] => { g1 with command := some parts.1 }
    | t0 :: rest =>
      if validate_gcode_command_string t0 then
        { g1 with command := some t0, parameters := rest.map parseParamToken }
      else
        { g1 with command := some parts.1 }

/-! ## Configuration (the module-level WACK2 VARIABLES of the script) -/

/-- The module-level configuration constants of the script. -/
structure Config where
  coefficient_a : ℚ
  coefficient_b : ℚ
  coefficient_c : ℚ
  max_settling_positive : ℚ
  settling_negative : ℚ
  settling_positive : ℚ
  use_for_travel_moves : Bool
  freeze_settle_on_travel : Bool
  force_full_flow : Bool
  adjustment_hardlimit_factor : ℚ
  remove_width_comments : Bool
  verbose : Bool
  deriving DecidableEq, Repr

/-- The literal constant values assigned in the source. -/
def defaultConfig : Config :=
  { coefficient_a := -6137273/10000000
    coefficient_b := 7144318/1000000000
    coefficient_c := -2054924/100000000000
    max_settling_positive := 0
    settling_negative := 1/100
    settling_positive := 1/100
    use_for_travel_moves := true
    freeze_settle_on_travel := false
    force_full_flow := false
    adjustment_hardlimit_factor := 5
    remove_width_comments := true
    verbose := false }

/-- extruder_position_adjustment: the quadratic correction curve. -/
def extruder_position_adjustment (cfg : Config) (x : ℚ) : ℚ :=
  cfg.coefficient_a + cfg.coefficient_b * x + cfg.coefficient_c * x * x

/-! ## State tracker (Gcode.state) -/

/-- Addition of two optional values.  The script writes a bare +=, which
raises a TypeError when either side is None; that situation is
unreachable in the pipeline, because the first processed line replaces a
missing previous state by the all-zero state, so every later state
carries values.  The embedding propagates none instead. -/
def optAdd : Option ℚ → Option ℚ → Option ℚ
  | some a, some b => some (a + b)
  | _, _ => none

/-- One step of the parameter loop in Gcode.state: X/Y/Z follow the
position mode, E follows the extrusion mode, F is set unconditionally.
The mode flags consulted are those of the state being folded, i.e. the
flags of the previous state. -/
def applyMotionParam (s : State) (p : Parameter) : State :=
  if p.name = "X".data then
    if s.move_is_absolute then { s with X := p.value } else { s with X := optAdd s.X p.value }
  else if p.name = "Y".data then
    if s.move_is_absolute then { s with Y := p.value } else { s with Y := optAdd s.Y p.value }
  else if p.name = "Z".data then
    if s.move_is_absolute then { s with Z := p.value } else { s with Z := optAdd s.Z p.value }
  else if p.name = "E".data then
    if s.extrude_is_absolute then { s with E := p.value } else { s with E := optAdd s.E p.value }
  else if p.name = "F".data then { s with F := p.value }
  else s

/-- Gcode.state: the machine state after this command.  A missing
previous state defaults all axes to zero; G1, G2, G3 and (when travel
moves are used) G0 fold their parameters into the state; the mode flags
of the resulting state are taken from the command. -/
def Gcode.state (cfg : Config) (g : Gcode) : State :=
  let s0 : State :=
    match g.previous_state with
    | none => { State.default with X := some 0, Y := some 0, Z := some 0, E := some 0 }
    | some p => p
  let s1 : State :=
    if g.command = some "G1".data ∨ g.command = some "G2".data ∨ g.command = some "G3".data ∨
        (g.command = some "G0".data ∧ cfg.use_for_travel_moves = true) then
      g.parameters.foldl applyMotionParam s0
    else s0
  { s1 with move_is_absolute := g.move_is_absolute, extrude_is_absolute := g.extrude_is_absolute }

/-! ## Numeric rounding and formatting (Python round and format) -/

/-- Floor of a rational, via Euclidean division of the numerator. -/
def ratFloor (q : ℚ) : ℤ := Int.ediv q.num (q.den : ℤ)

/-- Python round to the nearest integer: ties go to the even neighbour. -/
def roundHalfEven (q : ℚ) : ℤ :=
  let f := ratFloor q
  let r := q - (f : ℚ)
  if r < 1/2 then f
  else if 1/2 < r then f + 1
  else if f % 2 = 0 then f else f + 1

/-- Python round(x, p): round half-to-even at p decimal places.  (The
script rounds binary floats; the embedding rounds the exact value.) -/
def roundDec (q : ℚ) (p : Nat) : ℚ := (roundHalfEven (q * 10 ^ p) : ℚ) / 10 ^ p

/-- Decimal digits of a natural number, most significant first. -/
def natChars (n : Nat) : List Char := Nat.toDigits 10 n

/-- Decimal digits of an integer with an optional leading minus sign. -/
def intChars (n : ℤ) : List Char :=
  if n < 0 then '-' :: natChars n.natAbs else natChars n.natAbs

/-- Left-pad with zero digits to the given width. -/
def padLeftZeros (p : Nat) (l : List Char) : List Char :=
  List.replicate (p - l.length) '0' ++ l

/-- Python format(x, ".pf"): fixed-point rendering with exactly p digits
after the dot, rounding half-to-even.  (The negative zero of binary
floats is not modelled: a value rounding to zero renders unsigned.) -/
def fixedChars (q : ℚ) (p : Nat) : List Char :=
  let n : ℤ := roundHalfEven (q * 10 ^ p)
  let sgn : List Char := if n < 0 then ['-'] else []
  let m : Nat := n.natAbs
  sgn ++ natChars (m / 10 ^ p) ++
    (if p = 0 then [] else '.' :: padLeftZeros p (natChars (m % 10 ^ p)))

/-- Python str.rstrip with a single character. -/
def rstripChar (ch : Char) (l : List Char) : List Char :=
  (l.reverse.dropWhile (fun c => c = ch)).reverse

/-- Gcode._format_number: round to the precision, render fixed-point,
strip trailing zeros and a trailing dot, and strip a leading zero before
the dot (also behind a minus sign).  The script rounds and then formats
at the same precision; fixedChars performs that rounding itself, so the
composition is identical. -/
def format_number (q : ℚ) (p : Nat) : List Char :=
  let s := rstripChar '.' (rstripChar '0' (fixedChars q p))
  match s with
  | '0' :: '.' :: rest => '.' :: rest
  | '-' :: '0' :: '.' :: rest => '-' :: '.' :: rest
  | v => v

/-- Smallest power of ten divisible by the denominator, if one exists
below the search bound: such denominators are exactly those of values
parsed from decimal text. -/
def decExpK (den : Nat) : Option Nat :=
  (List.range 21).find? (fun k => 10 ^ k % den = 0)

/-- Rendering of parameter values other than X, Y, Z and E, written
f-string style in the script.  An integral value prints as an integer (in
the pipeline these parameters hold values parsed as Python ints); a
value with a power-of-ten denominator prints as its shortest fixed
decimal, matching the float repr of a value parsed from such text; any
other rational (unreachable from parsing) prints as a fraction. -/
def valueRepr (q : ℚ) : List Char :=
  if q.den = 1 then intChars q.num
  else
    match decExpK q.den with
    | some k => fixedChars q k
    | none => intChars q.num ++ '/' :: natChars q.den

/-! ## Serializer (Gcode.__str__) -/

/-- The parameter loop of Gcode.__str__, threading the comment field:
for an E parameter with a value on a command that is not an XY movement,
the script sets the comment to the empty string when it was None (and
appends the empty string otherwise), a mutation observable on a second
serialization pass. -/
def strParamsAux (xyMove : Bool) : List Parameter → List Char → Option (List Char) →
    List Char × Option (List Char)
  | [], acc, com => (acc, com)
  | p :: ps, acc, com =>
    match p.value with
    | none => strParamsAux xyMove ps (acc ++ ' ' :: p.name) com
    | some v =>
      if p.name = "X".data ∨ p.name = "Y".data ∨ p.name = "Z".data then
        strParamsAux xyMove ps (acc ++ ' ' :: (p.name ++ format_number v 3)) com
      else if p.name = "E".data then
        let com' := if xyMove = false then some (com.getD []) else com
        strParamsAux xyMove ps (acc ++ ' ' :: (p.name ++ format_number v 5)) com'
      else
        strParamsAux xyMove ps (acc ++ ' ' :: (p.name ++ valueRepr v)) com

/-- Gcode.__str__: the rendered line together with the (possibly
comment-mutated) object.  A comment is emitted only when its length
exceeds one character, separated by a semicolon. -/
def gcodeStr (g : Gcode) : List Char × Gcode :=
  let bodyCom : List Char × Option (List Char) :=
    match g.command with
    | none => ([], g.comment)
    | some c => strParamsAux g.is_xy_movement g.parameters c g.comment
  let out : List Char :=
    match bodyCom.2 with
    | some cm =>
      if 1 < cm.length then
        if bodyCom.1 = [] then ';' :: ' ' :: cm else bodyCom.1 ++ ' ' :: ';' :: ' ' :: cm
      else bodyCom.1
    | none => bodyCom.1
  (out, { g with comment := bodyCom.2 })

/-! ## The driving fold of read_gcode_file

The script appends both Gcode objects and plain diagnostic strings to
one list; OutLine is that sum.  LoopState carries every piece of mutable
state of the reading loop: the last machine state, the settling
accumulator, the number of out-of-bounds warnings printed (the script
only prints; counting the prints makes the warning branch observable),
the line counter, the layer bookkeeping variables (z_height is assigned
once and never updated in the script) and the collected output. -/

/-- One element of the collected output list. -/
inductive OutLine where
  | raw (s : List Char)
  | code (g : Gcode)
  deriving DecidableEq, Repr

/-- Mutable state of the reading loop. -/
structure LoopState where
  last_state : Option State
  settling : ℚ
  warnings : Nat
  num_line : Nat
  z_height : ℚ
  layer_height : Option ℚ
  last_layer_height : Option ℚ
  out : List OutLine
  deriving DecidableEq, Repr

/-- Loop state before the first line.  The initial layer height comes
from an environment variable the pipeline never interprets numerically;
it is modelled as an opaque none. -/
def startLoopState : LoopState :=
  { last_state := none, settling := 0, warnings := 0, num_line := 1,
    z_height := 0, layer_height := none, last_layer_height := none, out := [] }

/-- The settling accumulator update: rightwards movement settles towards
max_settling_positive (taking the smaller of the two), leftwards
movement settles towards zero (taking the larger of the two), no lateral
change leaves the accumulator unchanged. -/
def settleStep (cfg : Config) (s dx : ℚ) : ℚ :=
  if 0 < dx then min (s + cfg.settling_positive * dx) cfg.max_settling_positive
  else if dx < 0 then max (s + cfg.settling_negative * dx) 0
  else s

/-- The settling update together with the out-of-bounds warning check,
both guarded by: not a travel move, or settling not frozen on travel. -/
def settleAndWarn (cfg : Config) (travel : Bool) (s : ℚ) (w : Nat) (dx : ℚ) : ℚ × Nat :=
  if travel = false ∨ cfg.freeze_settle_on_travel = false then
    let s' := settleStep cfg s dx
    (s', if s' < 0 ∨ cfg.max_settling_positive < s' then w + 1 else w)
  else (s, w)

/-- The hardlimit clamp applied to the adjustment when an explicit
extrusion value e is present: first the minimum with e times the factor,
then the maximum with the negation of e times the factor. -/
def clampAdj (factor e adj : ℚ) : ℚ := max (min adj (e * factor)) (-(e * factor))

/-- The layer-height bookkeeping for a motion command: on a Z value
above z_height the layer height is provisionally reset (the script
literally assigns z_height - z_height) and the previous value saved,
otherwise it is restored from the saved value.  This state never feeds
back into the output. -/
def layerUpdate (st : LoopState) (zv : Option ℚ) : Option ℚ × Option ℚ :=
  match zv with
  | some z =>
    if st.z_height < z then (some (st.z_height - st.z_height), st.layer_height)
    else (st.last_layer_height, st.last_layer_height)
  | none => (st.layer_height, st.last_layer_height)

/-- The verbose diagnostic lines appended before the corrected command
when verbose is on. -/
def verboseLines (cfg : Config) (eAbs settl dx eRel : ℚ) : List (List Char) :=
  if cfg.verbose then
    [";ABS E adj:".data ++ fixedChars eAbs 5 ++ " settl:".data ++ fixedChars settl 5 ++
      " Δx:".data ++ fixedChars dx 3,
     ";REL E adj:".data ++ fixedChars eRel 5]
  else []

/-- Result of the compensation block for one motion command. -/
structure CompResult where
  gcode : Gcode
  settling : ℚ
  warnings : Nat
  raws : List (List Char)
  deriving DecidableEq, Repr

/-- The compensation block of the reading loop, for a command already
known to be G1, G2 or G3 (a G0 is converted before this point).  It
requires a previous state and an X value; the settling accumulator is
updated, the adjustment combines the curve delta and the accumulator,
normalized by 180 and scaled by the lateral change; with an explicit E
value the adjustment is hardlimit-clamped and added, without one (and
with travel moves in use) the rounded adjustment is synthesized as the E
value and a TRAVEL marker line is emitted before the command.  The inner
match arm with a previous state whose X is none is unreachable in the
pipeline (every state produced by Gcode.state carries an X value); the
script would raise a TypeError there, the embedding skips compensation. -/
def compensate (cfg : Config) (settling : ℚ) (warnings : Nat) (travel : Bool) (g : Gcode) :
    CompResult :=
  match g.previous_state, g.get_param "X".data with
  | some prev, some xv =>
    match prev.X with
    | some px =>
      let sw := settleAndWarn cfg travel settling warnings (xv - px)
      let eAbs := extruder_position_adjustment cfg xv - extruder_position_adjustment cfg px
      let eadj := (eAbs + sw.1) / 180 * (xv - px)
      match g.get_param "E".data with
      | some e =>
        ⟨g.set_param "E".data (roundDec (e + clampAdj cfg.adjustment_hardlimit_factor e eadj) 5),
          sw.1, sw.2, verboseLines cfg eAbs sw.1 (xv - px) eadj⟩
      | none =>
        if cfg.use_for_travel_moves = true then
          ⟨g.set_param "E".data (roundDec eadj 5), sw.1, sw.2,
            ";TRAVEL".data :: verboseLines cfg eAbs sw.1 (xv - px) eadj⟩
        else ⟨g, sw.1, sw.2, verboseLines cfg eAbs sw.1 (xv - px) eadj⟩
    | none => ⟨g, settling, warnings, []⟩
  | _, _ => ⟨g, settling, warnings, []⟩

/-- The body of the reading loop after the mode updates and the two
skip checks: derive the next machine state, stamp the line number,
convert G0 to G1 when travel moves are used, and run the compensation
block on motion commands. -/
def stepCore (cfg : Config) (st : LoopState) (g0 : Gcode) : LoopState :=
  let newState := g0.state cfg
  let g1 : Gcode := { g0 with num_line := some st.num_line }
  let conv : Gcode × Bool :=
    if g1.command = some "G0".data ∧ cfg.use_for_travel_moves = true then
      ({ g1 with command := some "G1".data }, true)
    else (g1, false)
  if conv.1.command = some "G1".data ∨ conv.1.command = some "G2".data ∨
      conv.1.command = some "G3".data then
    let lay := layerUpdate st (conv.1.get_param "Z".data)
    let r := compensate cfg st.settling st.warnings conv.2 conv.1
    { last_state := some newState, settling := r.settling, warnings := r.warnings,
      num_line := st.num_line + 1, z_height := st.z_height,
      layer_height := lay.1, last_layer_height := lay.2,
      out := st.out ++ r.raws.map OutLine.raw ++ [OutLine.code r.gcode] }
  else
    { st with
      last_state := some newState, num_line := st.num_line + 1,
      out := st.out ++ [OutLine.code conv.1] }

/-- The mode updates at the top of the reading loop: G90/G91 switch the
position mode, M82/M83 the extrusion mode, and M221 is rewritten to full
flow when that override is configured. -/
def applyModes (cfg : Config) (g : Gcode) : Gcode :=
  if g.command = some "G90".data then { g with move_is_absolute := true }
  else if g.command = some "G91".data then { g with move_is_absolute := false }
  else if g.command = some "M82".data then { g with extrude_is_absolute := true }
  else if g.command = some "M83".data then { g with extrude_is_absolute := false }
  else if g.command = some "M221".data ∧ cfg.force_full_flow = true then
    g.set_param "S".data 100
  else g

/-- One full iteration of the reading loop: parse against the last
state, apply mode updates, drop the line when it has no command token or
when it is a width comment and those are removed, otherwise run the
core step. -/
def processLine (cfg : Config) (st : LoopState) (line : List Char) : LoopState :=
  let g := applyModes cfg (parse_gcode_line line st.last_state)
  match g.command with
  | none => st
  | some c =>
    if cfg.remove_width_comments = true ∧ ";WIDTH".data.isPrefixOf c then st
    else stepCore cfg st g

/-- read_gcode_file on the list of lines of the file. -/
def processFile (cfg : Config) (lines : List (List Char)) : LoopState :=
  lines.foldl (processLine cfg) startLoopState

/-- Rendering of one collected output element, as written by the saving
loop (a plain diagnostic string is written as itself). -/
def renderOut : OutLine → List Char
  | OutLine.raw s => s
  | OutLine.code g => (gcodeStr g).1

/-- E value of the i-th collected output element, when it is a command. -/
def outLineE (l : List OutLine) (i : Nat) : Option ℚ :=
  match l.get? i with
  | some (OutLine.code g) => g.get_param "E".data
  | _ => none

/-- Number of command (non-diagnostic) elements in the output. -/
def codeCount (l : List OutLine) : Nat :=
  (l.filter fun o => match o with | OutLine.code _ => true | OutLine.raw _ => false).length

/-- A line the reading loop drops: no command token after parsing (blank
or whitespace-only lines), or a width comment while those are removed. -/
def droppedLine (cfg : Config) (st : LoopState) (line : List Char) : Bool :=
  match (applyModes cfg (parse_gcode_line line st.last_state)).command with
  | none => true
  | some c => cfg.remove_width_comments && ";WIDTH".data.isPrefixOf c

/-! ## Helper lemmas -/

theorem get_set_param_list (ps : List Parameter) (n : List Char) (v : ℚ) :
    (match (setParamList ps n v).find? (fun p => p.name = n) with
      | some p => p.value
      | none => none) = some v := by
  induction ps with
  | nil => simp [setParamList, List.find?]
  | cons p ps ih =>
    by_cases h : p.name = n
    · simp [setParamList, h, List.find?]
    · have e1 : setParamList (p :: ps) n v = p :: setParamList ps n v := by
        simp [setParamList, h]
      rw [e1, List.find?_cons, show (decide (p.name = n)) = false by simp [h]]
      exact ih

/-- Setting a parameter makes it readable back. -/
theorem get_param_set_param (g : Gcode) (n : List Char) (v : ℚ) :
    (g.set_param n v).get_param n = some v := by
  simpa [Gcode.get_param, Gcode.set_param] using get_set_param_list g.parameters n v

/-- Setting one parameter leaves the command token unchanged. -/
theorem set_param_command (g : Gcode) (n : List Char) (v : ℚ) :
    (g.set_param n v).command = g.command := rfl

/-- The settling update keeps the accumulator inside its bound when both
settling rates and the positive bound are non-negative. -/
theorem settleStep_bounds (cfg : Config) (s dx : ℚ)
    (hp : 0 ≤ cfg.settling_positive) (hn : 0 ≤ cfg.settling_negative)
    (hm : 0 ≤ cfg.max_settling_positive)
    (h0 : 0 ≤ s) (h1 : s ≤ cfg.max_settling_positive) :
    0 ≤ settleStep cfg s dx ∧ settleStep cfg s dx ≤ cfg.max_settling_positive := by
  unfold settleStep
  split
  · next hdx =>
    exact ⟨le_min (add_nonneg h0 (mul_nonneg hp hdx.le)) hm, min_le_right _ _⟩
  · split
    · next hdx =>
      refine ⟨le_max_right _ _, max_le (le_trans ?_ h1) hm⟩
      nlinarith
    · exact ⟨h0, h1⟩

/-- Inside its bound, the settling update never adds a warning. -/
theorem settleAndWarn_inv (cfg : Config) (travel : Bool) (s : ℚ) (w : Nat) (dx : ℚ)
    (hp : 0 ≤ cfg.settling_positive) (hn : 0 ≤ cfg.settling_negative)
    (hm : 0 ≤ cfg.max_settling_positive)
    (h0 : 0 ≤ s) (h1 : s ≤ cfg.max_settling_positive) :
    0 ≤ (settleAndWarn cfg travel s w dx).1 ∧
    (settleAndWarn cfg travel s w dx).1 ≤ cfg.max_settling_positive ∧
    (settleAndWarn cfg travel s w dx).2 = w := by
  unfold settleAndWarn
  split
  · have hb := settleStep_bounds cfg s dx hp hn hm h0 h1
    refine ⟨hb.1, hb.2, ?_⟩
    have hcond : ¬(settleStep cfg s dx < 0 ∨
        cfg.max_settling_positive < settleStep cfg s dx) := by
      push_neg
      exact ⟨hb.1, hb.2⟩
    show (if settleStep cfg s dx < 0 ∨ cfg.max_settling_positive < settleStep cfg s dx
        then w + 1 else w) = w
    exact if_neg hcond
  · exact ⟨h0, h1, rfl⟩

/-- The compensation block keeps the settling accumulator inside its
bound and never adds a warning, for non-negative configuration values. -/
theorem compensate_inv (cfg : Config) (s : ℚ) (w : Nat) (travel : Bool) (g : Gcode)
    (hp : 0 ≤ cfg.settling_positive) (hn : 0 ≤ cfg.settling_negative)
    (hm : 0 ≤ cfg.max_settling_positive)
    (h0 : 0 ≤ s) (h1 : s ≤ cfg.max_settling_positive) :
    0 ≤ (compensate cfg s w travel g).settling ∧
    (compensate cfg s w travel g).settling ≤ cfg.max_settling_positive ∧
    (compensate cfg s w travel g).warnings = w := by
  unfold compensate
  split
  all_goals try exact ⟨h0, h1, rfl⟩
  next prev xv hprev hxv =>
    split
    all_goals try exact ⟨h0, h1, rfl⟩
    next px hpx =>
      have hsw := settleAndWarn_inv cfg travel s w (xv - px) hp hn hm h0 h1
      split
      · exact ⟨hsw.1, hsw.2.1, hsw.2.2⟩
      · split
        · exact ⟨hsw.1, hsw.2.1, hsw.2.2⟩
        · exact ⟨hsw.1, hsw.2.1, hsw.2.2⟩

/-- The core step keeps the settling accumulator inside its bound and
never adds a warning, for non-negative configuration values. -/
theorem stepCore_inv (cfg : Config) (st : LoopState) (g : Gcode)
    (hp : 0 ≤ cfg.settling_positive) (hn : 0 ≤ cfg.settling_negative)
    (hm : 0 ≤ cfg.max_settling_positive)
    (h0 : 0 ≤ st.settling) (h1 : st.settling ≤ cfg.max_settling_positive) :
    0 ≤ (stepCore cfg st g).settling ∧
    (stepCore cfg st g).settling ≤ cfg.max_settling_positive ∧
    (stepCore cfg st g).warnings = st.warnings := by
  simp only [stepCore]
  split
  all_goals split
  all_goals first
    | exact ⟨h0, h1, rfl⟩
    | exact compensate_inv cfg st.settling st.warnings _ _ hp hn hm h0 h1

/-- One loop iteration keeps the settling accumulator inside its bound
and never adds a warning, for non-negative configuration values. -/
theorem processLine_inv (cfg : Config) (st : LoopState) (line : List Char)
    (hp : 0 ≤ cfg.settling_positive) (hn : 0 ≤ cfg.settling_negative)
    (hm : 0 ≤ cfg.max_settling_positive)
    (h0 : 0 ≤ st.settling) (h1 : st.settling ≤ cfg.max_settling_positive) :
    0 ≤ (processLine cfg st line).settling ∧
    (processLine cfg st line).settling ≤ cfg.max_settling_positive ∧
    (processLine cfg st line).warnings = st.warnings := by
  simp only [processLine]
  split
  · exact ⟨h0, h1, rfl⟩
  · split
    · exact ⟨h0, h1, rfl⟩
    · exact stepCore_inv cfg st _ hp hn hm h0 h1

/-! ## Claims -/

/-- Claim C1: starting from a settling accumulator of 0, and with the
configuration values settling_positive, settling_negative and
max_settling_positive all non-negative, after processing any sequence of
input lines the settling accumulator lies within the closed interval
from 0 to max_settling_positive, and the out-of-bounds warning branch is
never taken. -/
theorem c1_settling_always_bounded (cfg : Config)
    (hp : 0 ≤ cfg.settling_positive) (hn : 0 ≤ cfg.settling_negative)
    (hm : 0 ≤ cfg.max_settling_positive) (lines : List (List Char)) :
    0 ≤ (processFile cfg lines).settling ∧
    (processFile cfg lines).settling ≤ cfg.max_settling_positive ∧
    (processFile cfg lines).warnings = 0 := by
  have main : ∀ (ls : List (List Char)) (st : LoopState),
      0 ≤ st.settling → st.settling ≤ cfg.max_settling_positive →
      0 ≤ (ls.foldl (processLine cfg) st).settling ∧
      (ls.foldl (processLine cfg) st).settling ≤ cfg.max_settling_positive ∧
      (ls.foldl (processLine cfg) st).warnings = st.warnings := by
    intro ls
    induction ls with
    | nil => intro st h0 h1; exact ⟨h0, h1, rfl⟩
    | cons l ls ih =>
      intro st h0 h1
      have hstep := processLine_inv cfg st l hp hn hm h0 h1
      have hrest := ih (processLine cfg st l) hstep.1 hstep.2.1
      exact ⟨hrest.1, hrest.2.1, hrest.2.2.trans hstep.2.2⟩
  have h := main lines startLoopState le_rfl hm
  exact ⟨h.1, h.2.1, h.2.2⟩

/-- Witness for C1: the source configuration is non-negative and a
concrete two-move file keeps the accumulator bounded without warnings. -/
theorem c1_settling_always_bounded_witness :
    (0 ≤ defaultConfig.settling_positive ∧ 0 ≤ defaultConfig.settling_negative ∧
      0 ≤ defaultConfig.max_settling_positive) ∧
    (0 ≤ (processFile defaultConfig ["G1 X10 E1".data, "G1 X-5 E1".data]).settling ∧
      (processFile defaultConfig ["G1 X10 E1".data, "G1 X-5 E1".data]).settling ≤
        defaultConfig.max_settling_positive ∧
      (processFile defaultConfig ["G1 X10 E1".data, "G1 X-5 E1".data]).warnings = 0) :=
  ⟨⟨by decide, by decide, by decide⟩,
    c1_settling_always_bounded defaultConfig (by decide) (by decide) (by decide) _⟩

/-- Claim C2, counterexample: a whitespace-only input line is not
preserved as a blank output line; the reading loop drops it entirely,
so one input line yields zero output lines. -/
theorem c2_counterexample :
    (processFile defaultConfig [" ".data]).out = [] := by decide

theorem codeCount_append (a b : List OutLine) :
    codeCount (a ++ b) = codeCount a + codeCount b := by
  simp [codeCount, List.filter_append]

theorem codeCount_raws (rs : List (List Char)) :
    codeCount (rs.map OutLine.raw) = 0 := by
  induction rs with
  | nil => rfl
  | cons r rs ih => simp [codeCount, List.filter] at ih ⊢

/-- The core step appends some raw diagnostic lines followed by exactly
one command line. -/
theorem stepCore_out (cfg : Config) (st : LoopState) (g : Gcode) :
    ∃ (rs : List (List Char)) (g2 : Gcode),
      (stepCore cfg st g).out = st.out ++ rs.map OutLine.raw ++ [OutLine.code g2] := by
  simp only [stepCore]
  split
  all_goals split
  all_goals first
    | exact ⟨_, _, rfl⟩
    | exact ⟨[], _, by rw [List.map_nil, List.append_nil]⟩

/-- Claim C2, amended: a processed line never removes output; a line
whose parsed command token is missing (blank or whitespace-only input)
or which is an elided width comment contributes no output line at all,
and every other line contributes exactly one command line, preceded by
zero or more raw diagnostic lines. -/
theorem processLine_dropped (cfg : Config) (st : LoopState) (line : List Char)
    (h : droppedLine cfg st line = true) : processLine cfg st line = st := by
  unfold droppedLine at h
  simp only [processLine]
  split
  · rfl
  · next c hc =>
    simp only [hc, Bool.and_eq_true] at h
    rw [if_pos h]

theorem processLine_kept (cfg : Config) (st : LoopState) (line : List Char)
    (h : droppedLine cfg st line = false) :
    processLine cfg st line =
      stepCore cfg st (applyModes cfg (parse_gcode_line line st.last_state)) := by
  unfold droppedLine at h
  simp only [processLine]
  split
  · next hc =>
    simp only [hc] at h
    exact absurd h (by decide)
  · next c hc =>
    simp only [hc] at h
    rw [if_neg]
    intro hcon
    rw [hcon.1, hcon.2] at h
    simp at h

theorem c2_lines_only_added (cfg : Config) (st : LoopState) (line : List Char) :
    codeCount (processLine cfg st line).out =
      codeCount st.out + (if droppedLine cfg st line = true then 0 else 1) ∧
    st.out <+: (processLine cfg st line).out := by
  by_cases hd : droppedLine cfg st line = true
  · rw [processLine_dropped cfg st line hd, hd]
    simp
  · have hd' : droppedLine cfg st line = false := by
      rwa [Bool.not_eq_true] at hd
    rw [processLine_kept cfg st line hd', hd']
    obtain ⟨rs, g2, hout⟩ := stepCore_out cfg st
      (applyModes cfg (parse_gcode_line line st.last_state))
    rw [hout]
    constructor
    · simp [codeCount_append, codeCount_raws, codeCount]
    · rw [List.append_assoc]
      exact List.prefix_append _ _

/-- Claim C3, counterexample: with the source configuration (hardlimit
factor 5), the explicit extrusion value 0.000001 on a move from X=0 to
X=100 is clamped to the full positive bound, giving the pre-rounding
value 0.000006; rounding to 5 decimals writes back 0.00001, which
exceeds e plus the absolute value of e times the hardlimit. -/
theorem c3_counterexample :
    outLineE (processFile defaultConfig
        ["G1 X0 E0".data, "G1 X100 E0.000001".data]).out 1 = some (1/100000) ∧
    (1/1000000 : ℚ) + |(1/1000000 : ℚ)| * defaultConfig.adjustment_hardlimit_factor <
      1/100000 := by
  constructor
  · decide
  · rw [abs_of_pos (by norm_num)]
    norm_num [defaultConfig]

/-- The floor helper is a true floor. -/
theorem ratFloor_bounds (q : ℚ) : (ratFloor q : ℚ) ≤ q ∧ q < (ratFloor q : ℚ) + 1 := by
  have hd0 : (0:ℤ) < (q.den : ℤ) := by exact_mod_cast q.pos
  set k : ℤ := q.num / (q.den : ℤ) with hk
  have h1 : (q.den : ℤ) * k + q.num % (q.den : ℤ) = q.num := Int.ediv_add_emod _ _
  have h2 : 0 ≤ q.num % (q.den : ℤ) := Int.emod_nonneg _ (by omega)
  have h3 : q.num % (q.den : ℤ) < (q.den : ℤ) := Int.emod_lt_of_pos _ hd0
  have hkl : (q.den : ℤ) * k ≤ q.num := by linarith
  have hku : q.num < (q.den : ℤ) * k + (q.den : ℤ) := by linarith
  have hfk : ratFloor q = k := rfl
  have hdQ : (0:ℚ) < (q.den : ℚ) := by exact_mod_cast hd0
  have hnum : (q.num : ℚ) = q * (q.den : ℚ) :=
    (div_eq_iff (ne_of_gt hdQ)).mp (Rat.num_div_den q)
  constructor
  · rw [hfk]
    refine le_of_mul_le_mul_right ?_ hdQ
    have hc : ((q.den : ℤ) : ℚ) * ((k : ℤ) : ℚ) ≤ (q.num : ℚ) := by exact_mod_cast hkl
    rw [hnum] at hc
    push_cast at hc ⊢
    linarith
  · rw [hfk]
    refine lt_of_mul_lt_mul_right ?_ hdQ.le
    have hc : (q.num : ℚ) < ((q.den : ℤ) : ℚ) * ((k : ℤ) : ℚ) + ((q.den : ℤ) : ℚ) := by
      exact_mod_cast hku
    rw [hnum] at hc
    push_cast at hc ⊢
    linarith

/-- Half-even rounding moves a value by at most one half. -/
theorem roundHalfEven_bounds (q : ℚ) :
    q - 1/2 ≤ (roundHalfEven q : ℚ) ∧ (roundHalfEven q : ℚ) ≤ q + 1/2 := by
  obtain ⟨hf1, hf2⟩ := ratFloor_bounds q
  simp only [roundHalfEven]
  split
  · next hr => constructor <;> linarith
  · next hr =>
    split
    · next hr2 => constructor <;> [push_cast; push_cast] <;> linarith
    · next hr2 =>
      split
      · constructor <;> linarith
      · constructor <;> [push_cast; push_cast] <;> linarith

/-- Rounding at 5 decimals moves a value by at most half of the last
decimal place. -/
theorem roundDec5_bounds (q : ℚ) :
    q - 1/200000 ≤ roundDec q 5 ∧ roundDec q 5 ≤ q + 1/200000 := by
  obtain ⟨h1, h2⟩ := roundHalfEven_bounds (q * 10 ^ 5)
  have hp : ((10:ℚ) ^ 5) = 100000 := by norm_num
  rw [hp] at h1 h2
  rw [roundDec, hp]
  constructor
  · rw [le_div_iff₀ (by norm_num : (0:ℚ) < 100000)]
    linarith
  · rw [div_le_iff₀ (by norm_num : (0:ℚ) < 100000)]
    linarith

/-- The hardlimit clamp always lands inside the symmetric bound given by
the absolute value of the extrusion, for a non-negative factor.  (For a
negative e the two clamp bounds are crossed and the result is the
constant -(e*h), still inside the symmetric bound.) -/
theorem clampAdj_bounds (h e adj : ℚ) (hh : 0 ≤ h) :
    -(|e| * h) ≤ clampAdj h e adj ∧ clampAdj h e adj ≤ |e| * h := by
  have he1 : e * h ≤ |e| * h := mul_le_mul_of_nonneg_right (le_abs_self e) hh
  have he2 : -(e * h) ≤ |e| * h := by
    have hne : -e ≤ |e| := neg_le_abs e
    nlinarith
  constructor
  · exact le_trans (neg_le_neg he1) (le_max_right _ _)
  · exact max_le (le_trans (min_le_right _ _) he1) he2

/-- With a previous state, a known previous X, an X value and an
explicit E value, the compensation block writes back the clamped,
rounded corrected extrusion. -/
theorem compensate_E_explicit (cfg : Config) (s : ℚ) (w : Nat) (travel : Bool) (g : Gcode)
    (prev : State) (px xv e : ℚ)
    (hprev : g.previous_state = some prev) (hpx : prev.X = some px)
    (hx : g.get_param "X".data = some xv) (he : g.get_param "E".data = some e) :
    compensate cfg s w travel g =
      ⟨g.set_param "E".data (roundDec (e + clampAdj cfg.adjustment_hardlimit_factor e
          ((extruder_position_adjustment cfg xv - extruder_position_adjustment cfg px +
            (settleAndWarn cfg travel s w (xv - px)).1) / 180 * (xv - px))) 5),
        (settleAndWarn cfg travel s w (xv - px)).1,
        (settleAndWarn cfg travel s w (xv - px)).2,
        verboseLines cfg
          (extruder_position_adjustment cfg xv - extruder_position_adjustment cfg px)
          (settleAndWarn cfg travel s w (xv - px)).1 (xv - px)
          ((extruder_position_adjustment cfg xv - extruder_position_adjustment cfg px +
            (settleAndWarn cfg travel s w (xv - px)).1) / 180 * (xv - px))⟩ := by
  unfold compensate
  simp only [hprev, hx, hpx, he]

/-- With a previous state, a known previous X, an X value, no E value
and travel synthesis enabled, the compensation block synthesizes the
rounded unclamped adjustment as the E value and emits the TRAVEL marker
first among its diagnostic lines. -/
theorem compensate_E_travel (cfg : Config) (s : ℚ) (w : Nat) (travel : Bool) (g : Gcode)
    (prev : State) (px xv : ℚ)
    (hprev : g.previous_state = some prev) (hpx : prev.X = some px)
    (hx : g.get_param "X".data = some xv) (he : g.get_param "E".data = none)
    (ht : cfg.use_for_travel_moves = true) :
    compensate cfg s w travel g =
      ⟨g.set_param "E".data (roundDec
          ((extruder_position_adjustment cfg xv - extruder_position_adjustment cfg px +
            (settleAndWarn cfg travel s w (xv - px)).1) / 180 * (xv - px)) 5),
        (settleAndWarn cfg travel s w (xv - px)).1,
        (settleAndWarn cfg travel s w (xv - px)).2,
        ";TRAVEL".data :: verboseLines cfg
          (extruder_position_adjustment cfg xv - extruder_position_adjustment cfg px)
          (settleAndWarn cfg travel s w (xv - px)).1 (xv - px)
          ((extruder_position_adjustment cfg xv - extruder_position_adjustment cfg px +
            (settleAndWarn cfg travel s w (xv - px)).1) / 180 * (xv - px))⟩ := by
  unfold compensate
  simp only [hprev, hx, hpx, he, if_pos ht]

/-- Without an X value the compensation block does nothing. -/
theorem compensate_noX (cfg : Config) (s : ℚ) (w : Nat) (travel : Bool) (g : Gcode)
    (hx : g.get_param "X".data = none) :
    compensate cfg s w travel g = ⟨g, s, w, []⟩ := by
  unfold compensate
  simp only [hx]
  rcases g.previous_state with _ | prev <;> rfl

/-- Without a previous state the compensation block does nothing. -/
theorem compensate_noPrev (cfg : Config) (s : ℚ) (w : Nat) (travel : Bool) (g : Gcode)
    (hprev : g.previous_state = none) :
    compensate cfg s w travel g = ⟨g, s, w, []⟩ := by
  unfold compensate
  simp only [hprev]

/-- Claim C3, amended: for a motion command carrying an explicit
extrusion value e and an X value, with hardlimit factor h non-negative,
the adjustment added to e is bounded into [-|e|h, |e|h] before rounding,
so the pre-rounding corrected value lies within [e - |e|h, e + |e|h];
the value written back to the command is that corrected value rounded to
5 decimal places, which can leave the stated interval by at most half of
the final decimal place (1/200000) - and does leave it on the
counterexample input. -/
theorem c3_corrected_value_bounds (cfg : Config) (s : ℚ) (w : Nat) (travel : Bool)
    (g : Gcode) (prev : State) (px xv e : ℚ)
    (hh : 0 ≤ cfg.adjustment_hardlimit_factor)
    (hprev : g.previous_state = some prev) (hpx : prev.X = some px)
    (hx : g.get_param "X".data = some xv) (he : g.get_param "E".data = some e) :
    (∀ adj : ℚ,
      e - |e| * cfg.adjustment_hardlimit_factor ≤
          e + clampAdj cfg.adjustment_hardlimit_factor e adj ∧
      e + clampAdj cfg.adjustment_hardlimit_factor e adj ≤
          e + |e| * cfg.adjustment_hardlimit_factor) ∧
    (∀ adj : ℚ,
      e - |e| * cfg.adjustment_hardlimit_factor - 1/200000 ≤
          roundDec (e + clampAdj cfg.adjustment_hardlimit_factor e adj) 5 ∧
      roundDec (e + clampAdj cfg.adjustment_hardlimit_factor e adj) 5 ≤
          e + |e| * cfg.adjustment_hardlimit_factor + 1/200000) ∧
    (∃ adj : ℚ, (compensate cfg s w travel g).gcode.get_param "E".data =
      some (roundDec (e + clampAdj cfg.adjustment_hardlimit_factor e adj) 5)) := by
  refine ⟨?_, ?_, ?_⟩
  · intro adj
    obtain ⟨hc1, hc2⟩ := clampAdj_bounds cfg.adjustment_hardlimit_factor e adj hh
    exact ⟨by linarith, by linarith⟩
  · intro adj
    obtain ⟨hc1, hc2⟩ := clampAdj_bounds cfg.adjustment_hardlimit_factor e adj hh
    obtain ⟨hr1, hr2⟩ :=
      roundDec5_bounds (e + clampAdj cfg.adjustment_hardlimit_factor e adj)
    exact ⟨by linarith, by linarith⟩
  · refine ⟨(extruder_position_adjustment cfg xv - extruder_position_adjustment cfg px +
        (settleAndWarn cfg travel s w (xv - px)).1) / 180 * (xv - px), ?_⟩
    rw [compensate_E_explicit cfg s w travel g prev px xv e hprev hpx hx he]
    exact get_param_set_param _ _ _

/-- Witness for C3 as amended, at the source configuration on a
concrete command (E of 1/2, prior X of 0, X value 10). -/
theorem c3_corrected_value_bounds_witness :
    (0 ≤ defaultConfig.adjustment_hardlimit_factor) ∧
    ((⟨some "G1".data, [⟨"X".data, some 10⟩, ⟨"E".data, some (1/2)⟩], true, true, none,
        some { State.default with X := some 0 }, none⟩ : Gcode).previous_state =
      some { State.default with X := some 0 }) ∧
    (∃ adj : ℚ,
      (compensate defaultConfig 0 0 false
        (⟨some "G1".data, [⟨"X".data, some 10⟩, ⟨"E".data, some (1/2)⟩], true, true, none,
          some { State.default with X := some 0 }, none⟩ : Gcode)).gcode.get_param "E".data =
      some (roundDec ((1/2) + clampAdj defaultConfig.adjustment_hardlimit_factor (1/2) adj) 5)) :=
  ⟨by decide, rfl,
    (c3_corrected_value_bounds defaultConfig 0 0 false
      (⟨some "G1".data, [⟨"X".data, some 10⟩, ⟨"E".data, some (1/2)⟩], true, true, none,
        some { State.default with X := some 0 }, none⟩ : Gcode)
      { State.default with X := some 0 }
      0 10 (1/2) (by decide) (by decide) (by decide) (by decide) (by decide)).2.2⟩

/-- Claim C4: after a G91 command the position mode is relative, so a
motion command adds its X parameter to the prior X value instead of
replacing it; in absolute mode the parameter replaces the prior value;
F is updated unconditionally whenever present, in either mode.  In the
concrete scenario, G90 then G91 then a G1 X5 with prior X of 10 yields a
resulting X of 15, not 5. -/
theorem c4_relative_mode_adds (cfg : Config) (s : State) (x v fv : ℚ) (b1 b2 : Bool) :
    ((⟨some "G1".data, [⟨"X".data, some v⟩], true, true, none,
        some { s with move_is_absolute := false, X := some x }, none⟩ :
        Gcode).state cfg).X = some (x + v) ∧
    ((⟨some "G1".data, [⟨"X".data, some v⟩], true, true, none,
        some { s with move_is_absolute := true }, none⟩ : Gcode).state cfg).X =
      some v ∧
    ((⟨some "G1".data, [⟨"F".data, some fv⟩], true, true, none,
        some { s with move_is_absolute := b1, extrude_is_absolute := b2 }, none⟩ :
        Gcode).state cfg).F = some fv ∧
    ((processFile defaultConfig
        ["G1 X10".data, "G90".data, "G91".data, "G1 X5".data]).last_state).map State.X =
      some (some 15) := by
  refine ⟨?_, ?_, ?_, by decide⟩
  · simp +decide [Gcode.state, applyMotionParam, optAdd]
  · simp +decide [Gcode.state, applyMotionParam]
  · simp +decide [Gcode.state, applyMotionParam]

/-- Core step on a G1/G2/G3 command: state update, line-number stamp,
layer bookkeeping, and one compensated command appended after the
diagnostic lines of the compensation block (a non-travel invocation). -/
theorem stepCore_motion (cfg : Config) (st : LoopState) (g : Gcode)
    (hcmd : g.command = some "G1".data ∨ g.command = some "G2".data ∨
      g.command = some "G3".data) :
    stepCore cfg st g =
      { last_state := some (g.state cfg),
        settling := (compensate cfg st.settling st.warnings false
          { g with num_line := some st.num_line }).settling,
        warnings := (compensate cfg st.settling st.warnings false
          { g with num_line := some st.num_line }).warnings,
        num_line := st.num_line + 1,
        z_height := st.z_height,
        layer_height := (layerUpdate st (g.get_param "Z".data)).1,
        last_layer_height := (layerUpdate st (g.get_param "Z".data)).2,
        out := st.out ++ (compensate cfg st.settling st.warnings false
            { g with num_line := some st.num_line }).raws.map OutLine.raw ++
          [OutLine.code (compensate cfg st.settling st.warnings false
            { g with num_line := some st.num_line }).gcode] } := by
  have h0 : ¬(g.command = some "G0".data ∧ cfg.use_for_travel_moves = true) := by
    rintro ⟨h1, -⟩
    rcases hcmd with h | h | h <;> rw [h] at h1 <;> exact absurd h1 (by decide)
  simp only [stepCore]
  rw [if_neg h0, if_pos hcmd]
  rfl

/-- Core step on a G0 command with travel moves in use: the command is
converted to G1 and compensated as a travel move. -/
theorem stepCore_travel (cfg : Config) (st : LoopState) (g : Gcode)
    (hcmd : g.command = some "G0".data) (ht : cfg.use_for_travel_moves = true) :
    stepCore cfg st g =
      { last_state := some (g.state cfg),
        settling := (compensate cfg st.settling st.warnings true
          { g with command := some "G1".data, num_line := some st.num_line }).settling,
        warnings := (compensate cfg st.settling st.warnings true
          { g with command := some "G1".data, num_line := some st.num_line }).warnings,
        num_line := st.num_line + 1,
        z_height := st.z_height,
        layer_height := (layerUpdate st (g.get_param "Z".data)).1,
        last_layer_height := (layerUpdate st (g.get_param "Z".data)).2,
        out := st.out ++ (compensate cfg st.settling st.warnings true
            { g with command := some "G1".data, num_line := some st.num_line }).raws.map
              OutLine.raw ++
          [OutLine.code (compensate cfg st.settling st.warnings true
            { g with command := some "G1".data, num_line := some st.num_line }).gcode] } := by
  have hc : g.command = some "G0".data ∧ cfg.use_for_travel_moves = true := ⟨hcmd, ht⟩
  simp only [stepCore]
  rw [if_pos hc]
  simp +decide
  exact ⟨rfl, rfl⟩

/-- Claim C5: with travel synthesis enabled, a G0 travel move carrying
an X value but no E value (and with a prior state) is converted to a G1
command, gains a synthesized E parameter equal to the computed
adjustment rounded to 5 decimal places with no hardlimit clamp applied,
and is marked by a TRAVEL diagnostic line emitted just before it. -/
theorem c5_travel_synthesis (cfg : Config) (st : LoopState) (g : Gcode) (prev : State)
    (px xv : ℚ)
    (ht : cfg.use_for_travel_moves = true) (hv : cfg.verbose = false)
    (hcmd : g.command = some "G0".data)
    (hprev : g.previous_state = some prev) (hpx : prev.X = some px)
    (hx : g.get_param "X".data = some xv) (he : g.get_param "E".data = none) :
    (stepCore cfg st g).out = st.out ++
      [OutLine.raw ";TRAVEL".data,
       OutLine.code (({ g with command := some "G1".data, num_line := some st.num_line } :
          Gcode).set_param "E".data (roundDec
            ((extruder_position_adjustment cfg xv - extruder_position_adjustment cfg px +
              (settleAndWarn cfg true st.settling st.warnings (xv - px)).1) / 180 * (xv - px))
            5))] ∧
    (({ g with command := some "G1".data, num_line := some st.num_line } :
        Gcode).set_param "E".data (roundDec
          ((extruder_position_adjustment cfg xv - extruder_position_adjustment cfg px +
            (settleAndWarn cfg true st.settling st.warnings (xv - px)).1) / 180 * (xv - px))
          5)).command = some "G1".data ∧
    (({ g with command := some "G1".data, num_line := some st.num_line } :
        Gcode).set_param "E".data (roundDec
          ((extruder_position_adjustment cfg xv - extruder_position_adjustment cfg px +
            (settleAndWarn cfg true st.settling st.warnings (xv - px)).1) / 180 * (xv - px))
          5)).get_param "E".data = some (roundDec
          ((extruder_position_adjustment cfg xv - extruder_position_adjustment cfg px +
            (settleAndWarn cfg true st.settling st.warnings (xv - px)).1) / 180 * (xv - px))
          5) := by
  refine ⟨?_, set_param_command _ _ _, get_param_set_param _ _ _⟩
  rw [stepCore_travel cfg st g hcmd ht]
  rw [compensate_E_travel cfg st.settling st.warnings true
    { g with command := some "G1".data, num_line := some st.num_line } prev px xv
    hprev hpx hx he ht]
  simp [verboseLines, hv]

/-- Witness for C5: the source configuration, a G0 X20 travel move, a
prior state at the origin. -/
theorem c5_travel_synthesis_witness :
    (defaultConfig.use_for_travel_moves = true) ∧ (defaultConfig.verbose = false) ∧
    ((⟨some "G0".data, [⟨"X".data, some 20⟩], true, true, none,
        some ⟨some 0, some 0, some 0, some 0, none, true, true, 1/5⟩, none⟩ :
        Gcode).command = some "G0".data) ∧
    ((stepCore defaultConfig startLoopState
        (⟨some "G0".data, [⟨"X".data, some 20⟩], true, true, none,
          some ⟨some 0, some 0, some 0, some 0, none, true, true, 1/5⟩, none⟩ : Gcode)).out =
      startLoopState.out ++
      [OutLine.raw ";TRAVEL".data,
       OutLine.code (({ (⟨some "G0".data, [⟨"X".data, some 20⟩], true, true, none,
            some ⟨some 0, some 0, some 0, some 0, none, true, true, 1/5⟩, none⟩ : Gcode) with
            command := some "G1".data, num_line := some startLoopState.num_line } :
          Gcode).set_param "E".data (roundDec
            ((extruder_position_adjustment defaultConfig 20 -
              extruder_position_adjustment defaultConfig 0 +
              (settleAndWarn defaultConfig true startLoopState.settling
                startLoopState.warnings (20 - 0)).1) / 180 * (20 - 0)) 5))]) :=
  ⟨rfl, rfl, rfl,
    (c5_travel_synthesis defaultConfig startLoopState
      (⟨some "G0".data, [⟨"X".data, some 20⟩], true, true, none,
        some ⟨some 0, some 0, some 0, some 0, none, true, true, 1/5⟩, none⟩ : Gcode)
      ⟨some 0, some 0, some 0, some 0, none, true, true, 1/5⟩ 0 20
      rfl rfl rfl rfl rfl (by decide) (by decide)).1⟩

/-- Claim C9: with travel synthesis enabled, every G1, G2 or G3 motion
command (not only converted G0 travel moves) carrying an X value, a
prior state and no E value gains a synthesized E parameter equal to the
unclamped adjustment rounded to 5 decimal places, with the TRAVEL
diagnostic line emitted immediately before it in the output (with
verbose diagnostics off, as in the source configuration). -/
theorem c9_motion_gains_travel_e (cfg : Config) (st : LoopState) (g : Gcode) (prev : State)
    (px xv : ℚ)
    (ht : cfg.use_for_travel_moves = true) (hv : cfg.verbose = false)
    (hcmd : g.command = some "G1".data ∨ g.command = some "G2".data ∨
      g.command = some "G3".data)
    (hprev : g.previous_state = some prev) (hpx : prev.X = some px)
    (hx : g.get_param "X".data = some xv) (he : g.get_param "E".data = none) :
    (stepCore cfg st g).out = st.out ++
      [OutLine.raw ";TRAVEL".data,
       OutLine.code (({ g with num_line := some st.num_line } :
          Gcode).set_param "E".data (roundDec
            ((extruder_position_adjustment cfg xv - extruder_position_adjustment cfg px +
              (settleAndWarn cfg false st.settling st.warnings (xv - px)).1) / 180 * (xv - px))
            5))] ∧
    (({ g with num_line := some st.num_line } : Gcode).set_param "E".data (roundDec
          ((extruder_position_adjustment cfg xv - extruder_position_adjustment cfg px +
            (settleAndWarn cfg false st.settling st.warnings (xv - px)).1) / 180 * (xv - px))
          5)).command = g.command ∧
    (({ g with num_line := some st.num_line } : Gcode).set_param "E".data (roundDec
          ((extruder_position_adjustment cfg xv - extruder_position_adjustment cfg px +
            (settleAndWarn cfg false st.settling st.warnings (xv - px)).1) / 180 * (xv - px))
          5)).get_param "E".data = some (roundDec
          ((extruder_position_adjustment cfg xv - extruder_position_adjustment cfg px +
            (settleAndWarn cfg false st.settling st.warnings (xv - px)).1) / 180 * (xv - px))
          5) := by
  refine ⟨?_, set_param_command _ _ _, get_param_set_param _ _ _⟩
  rw [stepCore_motion cfg st g hcmd]
  rw [compensate_E_travel cfg st.settling st.warnings false
    { g with num_line := some st.num_line } prev px xv hprev hpx hx he ht]
  simp [verboseLines, hv]

/-- Witness for C9: the source configuration, a plain G1 X5 with prior
X of 10 and no E value. -/
theorem c9_motion_gains_travel_e_witness :
    (defaultConfig.use_for_travel_moves = true) ∧ (defaultConfig.verbose = false) ∧
    ((stepCore defaultConfig startLoopState
        (⟨some "G1".data, [⟨"X".data, some 5⟩], true, true, none,
          some ⟨some 10, some 0, some 0, some 0, none, true, true, 1/5⟩, none⟩ : Gcode)).out =
      startLoopState.out ++
      [OutLine.raw ";TRAVEL".data,
       OutLine.code (({ (⟨some "G1".data, [⟨"X".data, some 5⟩], true, true, none,
            some ⟨some 10, some 0, some 0, some 0, none, true, true, 1/5⟩, none⟩ : Gcode) with
            num_line := some startLoopState.num_line } :
          Gcode).set_param "E".data (roundDec
            ((extruder_position_adjustment defaultConfig 5 -
              extruder_position_adjustment defaultConfig 10 +
              (settleAndWarn defaultConfig false startLoopState.settling
                startLoopState.warnings (5 - 10)).1) / 180 * (5 - 10)) 5))]) :=
  ⟨rfl, rfl,
    (c9_motion_gains_travel_e defaultConfig startLoopState
      (⟨some "G1".data, [⟨"X".data, some 5⟩], true, true, none,
        some ⟨some 10, some 0, some 0, some 0, none, true, true, 1/5⟩, none⟩ : Gcode)
      ⟨some 10, some 0, some 0, some 0, none, true, true, 1/5⟩ 10 5
      rfl rfl (Or.inl rfl) rfl rfl (by decide) (by decide)).1⟩

/-- Claim C6: a motion command without an X value passes through the
compensation step with its E value untouched: exactly one command line
is appended and its E parameter equals the parsed one. -/
theorem c6_no_x_keeps_e (cfg : Config) (st : LoopState) (g : Gcode)
    (hcmd : g.command = some "G1".data ∨ g.command = some "G2".data ∨
      g.command = some "G3".data)
    (hx : g.get_param "X".data = none) :
    (stepCore cfg st g).out =
      st.out ++ [OutLine.code ({ g with num_line := some st.num_line } : Gcode)] ∧
    ({ g with num_line := some st.num_line } : Gcode).get_param "E".data =
      g.get_param "E".data := by
  refine ⟨?_, rfl⟩
  rw [stepCore_motion cfg st g hcmd]
  rw [compensate_noX cfg st.settling st.warnings false
    ({ g with num_line := some st.num_line } : Gcode)
    (show ({ g with num_line := some st.num_line } : Gcode).get_param "X".data = none from hx)]
  simp

/-- Witness for C6: a G1 with an E value of 1/2 and no X parameter. -/
theorem c6_no_x_keeps_e_witness :
    ((⟨some "G1".data, [⟨"E".data, some (1/2)⟩], true, true, none,
        some ⟨some 0, some 0, some 0, some 0, none, true, true, 1/5⟩, none⟩ :
        Gcode).get_param "X".data = none) ∧
    ((stepCore defaultConfig startLoopState
        (⟨some "G1".data, [⟨"E".data, some (1/2)⟩], true, true, none,
          some ⟨some 0, some 0, some 0, some 0, none, true, true, 1/5⟩, none⟩ : Gcode)).out =
      startLoopState.out ++
        [OutLine.code ({ (⟨some "G1".data, [⟨"E".data, some (1/2)⟩], true, true, none,
          some ⟨some 0, some 0, some 0, some 0, none, true, true, 1/5⟩, none⟩ : Gcode) with
          num_line := some startLoopState.num_line } : Gcode)]) :=
  ⟨by decide,
    (c6_no_x_keeps_e defaultConfig startLoopState
      (⟨some "G1".data, [⟨"E".data, some (1/2)⟩], true, true, none,
        some ⟨some 0, some 0, some 0, some 0, none, true, true, 1/5⟩, none⟩ : Gcode)
      (Or.inl rfl) (by decide)).1⟩

/-- Claim C10: for a strictly negative explicit extrusion value e and a
positive hardlimit factor h, the min clamp followed by the max clamp
degenerates: the adjustment becomes exactly -(e*h) whatever was
computed, so the written corrected extrusion is always e*(1-h) rounded
to 5 decimal places. -/
theorem c10_negative_e_degenerate (cfg : Config) (s : ℚ) (w : Nat) (travel : Bool)
    (g : Gcode) (prev : State) (px xv e : ℚ)
    (hh : 0 < cfg.adjustment_hardlimit_factor) (hneg : e < 0)
    (hprev : g.previous_state = some prev) (hpx : prev.X = some px)
    (hx : g.get_param "X".data = some xv) (he : g.get_param "E".data = some e) :
    (∀ adj : ℚ, clampAdj cfg.adjustment_hardlimit_factor e adj =
      -(e * cfg.adjustment_hardlimit_factor)) ∧
    (compensate cfg s w travel g).gcode.get_param "E".data =
      some (roundDec (e * (1 - cfg.adjustment_hardlimit_factor)) 5) := by
  have hkey : ∀ adj : ℚ, clampAdj cfg.adjustment_hardlimit_factor e adj =
      -(e * cfg.adjustment_hardlimit_factor) := by
    intro adj
    unfold clampAdj
    have h1 : e * cfg.adjustment_hardlimit_factor < 0 := mul_neg_of_neg_of_pos hneg hh
    exact max_eq_right (le_trans (min_le_right _ _) (by linarith))
  refine ⟨hkey, ?_⟩
  rw [compensate_E_explicit cfg s w travel g prev px xv e hprev hpx hx he]
  rw [hkey]
  rw [show e + -(e * cfg.adjustment_hardlimit_factor) =
    e * (1 - cfg.adjustment_hardlimit_factor) by ring]
  exact get_param_set_param _ _ _

/-- Witness for C10: the source configuration (factor 5), a G1 X10 with
E of -1 and prior X of 0: the written E is round(-1*(1-5), 5) = 4, and
the clamp at the sample adjustment 42 collapses to -((-1)*5) = 5. -/
theorem c10_negative_e_degenerate_witness :
    (0 < defaultConfig.adjustment_hardlimit_factor) ∧ ((-1 : ℚ) < 0) ∧
    (clampAdj defaultConfig.adjustment_hardlimit_factor (-1) 42 =
      -((-1) * defaultConfig.adjustment_hardlimit_factor)) ∧
    ((compensate defaultConfig 0 0 false
        (⟨some "G1".data, [⟨"X".data, some 10⟩, ⟨"E".data, some (-1)⟩], true, true, none,
          some ⟨some 0, some 0, some 0, some 0, none, true, true, 1/5⟩, none⟩ :
          Gcode)).gcode.get_param "E".data =
      some (roundDec ((-1) * (1 - defaultConfig.adjustment_hardlimit_factor)) 5)) :=
  ⟨by decide, by decide,
    (c10_negative_e_degenerate defaultConfig 0 0 false
      (⟨some "G1".data, [⟨"X".data, some 10⟩, ⟨"E".data, some (-1)⟩], true, true, none,
        some ⟨some 0, some 0, some 0, some 0, none, true, true, 1/5⟩, none⟩ : Gcode)
      ⟨some 0, some 0, some 0, some 0, none, true, true, 1/5⟩ 0 10 (-1)
      (by decide) (by decide) rfl rfl (by decide) (by decide)).1 42,
    (c10_negative_e_degenerate defaultConfig 0 0 false
      (⟨some "G1".data, [⟨"X".data, some 10⟩, ⟨"E".data, some (-1)⟩], true, true, none,
        some ⟨some 0, some 0, some 0, some 0, none, true, true, 1/5⟩, none⟩ : Gcode)
      ⟨some 0, some 0, some 0, some 0, none, true, true, 1/5⟩ 0 10 (-1)
      (by decide) (by decide) rfl rfl (by decide) (by decide)).2⟩

/-- Claim C7, counterexample: a file whose very first line is
G1 X10 E0.5 is processed without compensation; the output E value stays
exactly 1/2, whereas a compensation computed against a defaulted prior
X of 0 would have written 0.50385.  The compensation block requires a
present previous state and is skipped on the first line. -/
theorem c7_counterexample :
    outLineE (processFile defaultConfig ["G1 X10 E0.5".data]).out 0 = some (1/2) ∧
    roundDec ((1/2 : ℚ) + clampAdj defaultConfig.adjustment_hardlimit_factor (1/2)
        ((extruder_position_adjustment defaultConfig 10 -
          extruder_position_adjustment defaultConfig 0 +
          settleStep defaultConfig 0 (10 - 0)) / 180 * (10 - 0))) 5 ≠ (1/2 : ℚ) := by
  exact ⟨by decide, by decide⟩

/-- Claim C7, amended: a first motion command with no prior state does
not fail - the derived machine state defaults every axis to zero before
applying the command parameters - but the compensation block requires a
present previous state, so the first command itself is skipped by
compensation and keeps its parsed E value. -/
theorem c7_first_line_defaults (cfg : Config) (xv ev s : ℚ) (w : Nat) (travel : Bool) :
    ((⟨some "G1".data, [⟨"X".data, some xv⟩, ⟨"E".data, some ev⟩], true, true, none,
        none, none⟩ : Gcode).state cfg).X = some xv ∧
    ((⟨some "G1".data, [⟨"X".data, some xv⟩, ⟨"E".data, some ev⟩], true, true, none,
        none, none⟩ : Gcode).state cfg).Y = some 0 ∧
    ((⟨some "G1".data, [⟨"X".data, some xv⟩, ⟨"E".data, some ev⟩], true, true, none,
        none, none⟩ : Gcode).state cfg).Z = some 0 ∧
    ((⟨some "G1".data, [⟨"X".data, some xv⟩, ⟨"E".data, some ev⟩], true, true, none,
        none, none⟩ : Gcode).state cfg).E = some ev ∧
    compensate cfg s w travel
      (⟨some "G1".data, [⟨"X".data, some xv⟩, ⟨"E".data, some ev⟩], true, true, none,
        none, none⟩ : Gcode) =
      ⟨(⟨some "G1".data, [⟨"X".data, some xv⟩, ⟨"E".data, some ev⟩], true, true, none,
        none, none⟩ : Gcode), s, w, []⟩ := by
  refine ⟨?_, ?_, ?_, ?_, compensate_noPrev cfg s w travel _ rfl⟩
  · simp +decide [Gcode.state, applyMotionParam]
  · simp +decide [Gcode.state, applyMotionParam]
  · simp +decide [Gcode.state, applyMotionParam]
  · simp +decide [Gcode.state, applyMotionParam]

/-- The rendered text of the parameter loop does not depend on the
incoming comment value. -/
theorem strParamsAux_text_congr (xy : Bool) (ps : List Parameter) (acc : List Char)
    (com com' : Option (List Char)) :
    (strParamsAux xy ps acc com).1 = (strParamsAux xy ps acc com').1 := by
  induction ps generalizing acc com com' with
  | nil => rfl
  | cons p ps ih =>
    rcases hv : p.value with _ | v
    · simp only [strParamsAux, hv]
      exact ih _ _ _
    · simp only [strParamsAux, hv]
      split
      · exact ih _ _ _
      · split
        · exact ih _ _ _
        · exact ih _ _ _

/-- The comment after the parameter loop is either untouched or the
incoming comment with a none defaulted to the empty text. -/
theorem strParamsAux_com_cases (xy : Bool) (ps : List Parameter) (acc : List Char)
    (com : Option (List Char)) :
    (strParamsAux xy ps acc com).2 = com ∨
    (strParamsAux xy ps acc com).2 = some (com.getD []) := by
  induction ps generalizing acc com with
  | nil => exact Or.inl rfl
  | cons p ps ih =>
    rcases hv : p.value with _ | v
    · simp only [strParamsAux, hv]
      exact ih _ _
    · simp only [strParamsAux, hv]
      split
      · exact ih _ _
      · split
        · rcases ih (acc ++ ' ' :: (p.name ++ format_number v 5))
            (if xy = false then some (com.getD []) else com) with h | h <;> rw [h]
          · split
            · exact Or.inr rfl
            · exact Or.inl rfl
          · split
            · next hxy => exact Or.inr (by simp)
            · exact Or.inr rfl
        · exact ih _ _

/-- The XY-movement test only reads the command token and parameters. -/
theorem is_xy_movement_fields (g1 g2 : Gcode) (hcm : g1.command = g2.command)
    (hps : g1.parameters = g2.parameters) : g1.is_xy_movement = g2.is_xy_movement := by
  unfold Gcode.is_xy_movement
  rw [hcm, hps]

/-- Claim C8: serializing a command whose extrusion value is already
rounded to 5 decimal places a second time - that is, serializing the
comment-mutated object returned by the first pass - produces exactly
the same text as the first pass.  (The proof shows this for every
command: the comment mutation can only turn a missing comment into an
empty one, and an empty comment is never emitted.) -/
theorem c8_serialize_idempotent (g : Gcode)
    (_hE : ∀ q : ℚ, g.get_param "E".data = some q → roundDec q 5 = q) :
    (gcodeStr (gcodeStr g).2).1 = (gcodeStr g).1 := by
  rcases hc : g.command with _ | c
  · simp only [gcodeStr, hc]
  · simp only [gcodeStr, hc]
    rw [show (Gcode.mk (some c) g.parameters g.move_is_absolute g.extrude_is_absolute
        ((strParamsAux g.is_xy_movement g.parameters c g.comment).2) g.previous_state
        g.num_line).is_xy_movement = g.is_xy_movement from
      is_xy_movement_fields _ g (by rw [hc]) rfl]
    rw [strParamsAux_text_congr g.is_xy_movement g.parameters c
      (strParamsAux g.is_xy_movement g.parameters c g.comment).2 g.comment]
    rcases strParamsAux_com_cases g.is_xy_movement g.parameters c
      (strParamsAux g.is_xy_movement g.parameters c g.comment).2 with h2 | h2
    · rw [h2]
    · rw [h2]
      rcases hc1 : (strParamsAux g.is_xy_movement g.parameters c g.comment).2 with _ | c1
      · simp
      · simp

/-- Witness for C8: a G1 command with E already rounded (1/2). -/
theorem c8_serialize_idempotent_witness :
    (∀ q : ℚ, (⟨some "G1".data, [⟨"E".data, some (1/2)⟩], true, true, none, none, none⟩ :
        Gcode).get_param "E".data = some q → roundDec q 5 = q) ∧
    (gcodeStr (gcodeStr (⟨some "G1".data, [⟨"E".data, some (1/2)⟩], true, true, none, none,
        none⟩ : Gcode)).2).1 =
      (gcodeStr (⟨some "G1".data, [⟨"E".data, some (1/2)⟩], true, true, none, none, none⟩ :
        Gcode)).1 := by
  have hyp : ∀ q : ℚ, (⟨some "G1".data, [⟨"E".data, some (1/2)⟩], true, true, none, none,
      none⟩ : Gcode).get_param "E".data = some q → roundDec q 5 = q := by
    intro q hq
    have h1 : (⟨some "G1".data, [⟨"E".data, some (1/2)⟩], true, true, none, none, none⟩ :
        Gcode).get_param "E".data = some (1/2 : ℚ) := by decide
    rw [h1] at hq
    injection hq with h2
    rw [← h2]
    decide
  exact ⟨hyp, c8_serialize_idempotent _ hyp⟩
